import Mathlib

/-!
Verification development for the claude-sms-connect relay server.

The definitions below are a shallow embedding of the TypeScript sources:

* `ProjectRegistry` embeds `src/services/project-registry.ts` (the in-memory
  session registry: an insertion-ordered map plus a global `armed` flag).
* `TmuxService` embeds `src/services/tmux.ts` (session-name validation,
  existence check, and the literal `send-keys` delivery).
* `parseNumberedResponse`, `routeReply` and `handleMessage` embed the inbound
  reply handler of `src/services/telegram-poller.ts`; `smsInbound` embeds the
  parallel Twilio webhook route `POST /sms/inbound`.
* `redactSensitiveData` and `formatForSMS` embed `src/lib/redact.ts` and
  `src/lib/sanitize.ts` (the redaction pipeline).
* `notifyStep` embeds the `POST /api/notify` notification route.

JavaScript machine integers do not matter here (all arithmetic is on small
timestamps and list indices), so numbers are modelled as `Nat`/`Int`.
`Date.now()` is passed explicitly as a `now : Nat` argument.  External effects
(Telegram/Twilio sends, tmux invocations) are modelled as an explicit trace of
`Action`s; thrown JavaScript exceptions are modelled with `Except String`.
-/

set_option autoImplicit false

namespace SmsConnect

/-! ### JavaScript string primitives -/

/-- The character set matched by JavaScript `\s` and removed by
`String.prototype.trim` (WhiteSpace plus LineTerminator).  The listed
characters cover the full ECMAScript set. -/
def isJsWs (c : Char) : Bool :=
  let n := c.toNat
  n = 0x20 || n = 0x09 || n = 0x0a || n = 0x0d || n = 0x0b || n = 0x0c ||
  n = 0xa0 || n = 0x1680 || (0x2000 <= n && n <= 0x200a) ||
  n = 0x2028 || n = 0x2029 || n = 0x202f || n = 0x205f || n = 0x3000 || n = 0xfeff

/-- JavaScript `String.prototype.trim`. -/
def jsTrim (s : String) : String :=
  String.mk (((s.toList.dropWhile isJsWs).reverse.dropWhile isJsWs).reverse)

/-- JavaScript `String.prototype.toUpperCase`, modelled on its ASCII action
(the reserved tokens it is compared against are pure ASCII). -/
def jsToUpper (s : String) : String :=
  String.mk (s.toList.map Char.toUpper)

/-- JavaScript `||` on a possibly-missing string: the empty string is falsy. -/
def jsOrStr (a : Option String) (b : String) : String :=
  match a with
  | some v => if v = "" then b else v
  | none => b

/-- Digits of a decimal numeral folded to a `Nat` (JavaScript `parseInt(_, 10)`
on an all-digit numeral; the handler only ever feeds it `\d+` matches). -/
def digitsToNat (ds : List Char) : Nat :=
  ds.foldl (fun n c => n * 10 + (c.toNat - '0'.toNat)) 0

/-! ### ProjectRegistry (`src/services/project-registry.ts`)

The ES2015 `Map` preserves insertion order; `set` on an existing key keeps the
entry position and `delete` removes the entry.  We embed it as an association
list with exactly those operations. -/

/-- `ProjectMetadata` from `project-registry.ts`. -/
structure ProjectMetadata where
  sessionId : String
  projectName : String
  lastNotified : Nat
  registeredAt : Nat
  deriving Repr, DecidableEq

/-- First value stored under key `k` (ES2015 `Map.prototype.get`). -/
def mapGet : List (String × ProjectMetadata) → String → Option ProjectMetadata
  | [], _ => none
  | (k₀, v₀) :: t, k => if k₀ = k then some v₀ else mapGet t k

/-- `Map.prototype.set`: replace in place when the key exists, else append. -/
def mapSet : List (String × ProjectMetadata) → String → ProjectMetadata →
    List (String × ProjectMetadata)
  | [], k, v => [(k, v)]
  | (k₀, v₀) :: t, k, v => if k₀ = k then (k₀, v) :: t else (k₀, v₀) :: mapSet t k v

/-- `Map.prototype.delete`: remove the entry with the given key. -/
def mapDelete : List (String × ProjectMetadata) → String →
    List (String × ProjectMetadata)
  | [], _ => []
  | (k₀, v₀) :: t, k => if k₀ = k then t else (k₀, v₀) :: mapDelete t k

/-- The `ProjectRegistry` class state: insertion-ordered project map plus the
global arming flag (`armed = false` initially). -/
structure ProjectRegistry where
  projects : List (String × ProjectMetadata)
  armed : Bool
  deriving Repr, DecidableEq

namespace ProjectRegistry

/-- The freshly constructed registry (`new ProjectRegistry()`). -/
def init : ProjectRegistry := { projects := [], armed := false }

/-- `register(projectId, sessionId, projectName)`: stores or updates the
project, preserving `lastNotified` and `registeredAt` of an existing entry,
and returns whether this was the first registration. -/
def register (reg : ProjectRegistry) (projectId sessionId projectName : String)
    (now : Nat) : Bool × ProjectRegistry :=
  let existing := mapGet reg.projects projectId
  let isFirstRegistration := existing.isNone
  let metadata : ProjectMetadata :=
    { sessionId := sessionId
      projectName := projectName
      lastNotified := (existing.map (·.lastNotified)).getD 0
      registeredAt := (existing.map (·.registeredAt)).getD now }
  (isFirstRegistration, { reg with projects := mapSet reg.projects projectId metadata })

/-- `getActiveProjects()`: all projects in insertion order. -/
def getActiveProjects (reg : ProjectRegistry) : List ProjectMetadata :=
  reg.projects.map (·.2)

/-- `getByIndex(index)`: 0-based lookup; JavaScript `projects[index]` is
`undefined` for negative or out-of-range indices. -/
def getByIndex (reg : ProjectRegistry) (index : Int) : Option ProjectMetadata :=
  if 0 ≤ index then reg.getActiveProjects.get? index.toNat else none

/-- `get(projectId)`. -/
def get (reg : ProjectRegistry) (projectId : String) : Option ProjectMetadata :=
  mapGet reg.projects projectId

/-- `canNotify(projectId)`: false when disarmed; false for unknown projects;
true when never notified; otherwise true iff 5000 ms have elapsed. -/
def canNotify (reg : ProjectRegistry) (projectId : String) (now : Nat) : Bool :=
  if !reg.armed then
    false
  else
    match mapGet reg.projects projectId with
    | none => false
    | some project =>
      if project.lastNotified = 0 then
        true
      else
        decide (5000 ≤ now - project.lastNotified)

/-- `recordNotification(projectId)`: set `lastNotified` to now; no-op when the
project is unknown. -/
def recordNotification (reg : ProjectRegistry) (projectId : String) (now : Nat) :
    ProjectRegistry :=
  match mapGet reg.projects projectId with
  | none => reg
  | some project =>
    { reg with projects := mapSet reg.projects projectId { project with lastNotified := now } }

/-- `setArmed(armed)`. -/
def setArmed (reg : ProjectRegistry) (b : Bool) : ProjectRegistry :=
  { reg with armed := b }

/-- `isArmed()`. -/
def isArmed (reg : ProjectRegistry) : Bool := reg.armed

/-- `remove(projectId)`: delete and report whether the entry existed. -/
def remove (reg : ProjectRegistry) (projectId : String) : Bool × ProjectRegistry :=
  ((mapGet reg.projects projectId).isSome,
   { reg with projects := mapDelete reg.projects projectId })

/-- `count()`. -/
def count (reg : ProjectRegistry) : Nat := reg.projects.length

/-- Modelled from the spec: `findBySessionTarget(relayTarget) -> sessionId | None`
(§4.1).  `ProjectRegistry.findProjectIdBySession` is called by both inbound
reply handlers for stale-session cleanup, but its definition is not among the
sources; per the spec it finds the registered project by its relay target, so
it returns the projectId of the first entry (insertion order) whose stored
`sessionId` equals the given tmux session name. -/
def findProjectIdBySession (reg : ProjectRegistry) (sessionId : String) : Option String :=
  match reg.projects.find? (fun e => e.2.sessionId = sessionId) with
  | some e => some e.1
  | none => none

end ProjectRegistry

/-! ### TmuxService (`src/services/tmux.ts`) -/

namespace TmuxService

/-- The allow-list of `validateSessionName`: `/^[a-zA-Z0-9_-]+$/`. -/
def validChar (c : Char) : Bool :=
  ('a' ≤ c && c ≤ 'z') || ('A' ≤ c && c ≤ 'Z') || ('0' ≤ c && c ≤ '9') ||
  c = '_' || c = '-'

/-- `validateSessionName` as a predicate: the regex accepts exactly nonempty
strings of allow-listed characters (the method throws when this is false). -/
def validateSessionName (session : String) : Bool :=
  !session.isEmpty && session.toList.all validChar

/-- The error message thrown by `validateSessionName`. -/
def invalidNameMsg (session : String) : String :=
  "Invalid tmux session name: \"" ++ session ++
    "\". Only alphanumeric, underscore, and hyphen allowed."

/-- `hasSession(session)`: validates the name (throwing on failure), then asks
tmux; the external `tmux has-session` outcome is the oracle `exists?`. -/
def hasSession (exists? : String → Bool) (session : String) : Except String Bool :=
  if validateSessionName session then
    Except.ok (exists? session)
  else
    Except.error (invalidNameMsg session)

/-- `sendKeys(session, input)`: validate, check existence (throwing if the
session is gone), then issue exactly two `tmux` invocations — the literal
`send-keys -l` with the payload as a single argument, and a separate
non-literal `send-keys Enter`.  The returned lists are the argument vectors
passed to `execFile("tmux", args)`. -/
def sendKeys (exists? : String → Bool) (session input : String) :
    Except String (List (List String)) :=
  if validateSessionName session then
    match hasSession exists? session with
    | Except.error e => Except.error e
    | Except.ok false =>
      Except.error ("Tmux session \"" ++ session ++ "\" does not exist")
    | Except.ok true =>
      Except.ok [["send-keys", "-t", session, "-l", input],
                 ["send-keys", "-t", session, "Enter"]]
  else
    Except.error (invalidNameMsg session)

end TmuxService

/-! ### Inbound reply parsing and routing (`telegram-poller.ts` / `sms.ts`)

`parseNumberedResponse` implements the match against `/^(\d+)\s+(.+)$/s` on
the trimmed text.  Since `\d` and `\s` are disjoint character classes and the
dotall `(.+)` is anchored at `$` (strict end of string in a non-multiline
JavaScript regex), the regex matches exactly when the trimmed text splits as a
nonempty digit run, a nonempty whitespace run, and a nonempty remainder. -/

/-- Result of `parseNumberedResponse`: the 0-based project index (may be `-1`
for the reply `"0 ..."`) and the trimmed response text. -/
structure ParsedResponse where
  projectIndex : Option Int
  response : String
  deriving Repr, DecidableEq

/-- `parseNumberedResponse(text)`: `"1 Y" -> {projectIndex: 0, response: "Y"}`,
converting the 1-indexed user number to a 0-indexed position. -/
def parseNumberedResponse (text : String) : ParsedResponse :=
  let u := jsTrim text
  let cs := u.toList
  let ds := cs.takeWhile Char.isDigit
  let afterDigits := cs.dropWhile Char.isDigit
  let ws := afterDigits.takeWhile isJsWs
  let rest := afterDigits.dropWhile isJsWs
  if !ds.isEmpty && !ws.isEmpty && !rest.isEmpty then
    { projectIndex := some ((digitsToNat ds : Int) - 1)
      response := jsTrim (String.mk rest) }
  else
    { projectIndex := none, response := u }

/-- One observable effect of a request handler. -/
inductive Action where
  /-- `telegramService.sendMessage` / `twilioService.sendSMS` to the operator
  (neither ever throws). -/
  | sendMsg (text : String)
  /-- A TwiML response body sent by the Twilio webhook route. -/
  | twiml (body : String)
  /-- A completed `tmuxService.sendKeys(session, payload)` relay. -/
  | relayKeys (session payload : String)
  deriving Repr, DecidableEq

/-- Outcome of the target-resolution block of the reply handlers
(`telegram-poller.ts` lines 85-138 / `sms.ts` lines 126-180). -/
inductive RouteOutcome where
  /-- Numbered reply whose index resolved to no project (`getByIndex` miss);
  carries the 1-based number for the error message. -/
  | invalidNumber (oneBased : Int)
  /-- Bare reply, no active project, no `TMUX_SESSION` fallback. -/
  | noActive
  /-- Bare reply with two or more active projects. -/
  | multipleActive
  /-- A resolved `(sessionId, projectName, response)` target. -/
  | target (sessionId projectName response : String)
  deriving Repr, DecidableEq

/-- The routing block shared verbatim by both reply handlers: numbered replies
resolve through `getByIndex`; bare replies route to the single active project,
fall back to the configured `TMUX_SESSION` when none is active, and demand a
number when several are active. -/
def routeReply (reg : ProjectRegistry) (env : Option String) (userInput : String) :
    RouteOutcome :=
  let parsed := parseNumberedResponse userInput
  match parsed.projectIndex with
  | some idx =>
    match reg.getByIndex idx with
    | none => RouteOutcome.invalidNumber (idx + 1)
    | some project => RouteOutcome.target project.sessionId project.projectName parsed.response
  | none =>
    match reg.getActiveProjects with
    | [] =>
      match env with
      | none => RouteOutcome.noActive
      | some fallbackSession => RouteOutcome.target fallbackSession fallbackSession parsed.response
    | [project] => RouteOutcome.target project.sessionId project.projectName parsed.response
    | _ => RouteOutcome.multipleActive

/-- The stale-session cleanup of both reply handlers (OPS-05): look the dead
tmux session up by its session name and remove that registry entry.  The
source guards the removal with JavaScript truthiness (`if (staleProjectId)`),
which skips the empty string along with `undefined` — so an entry registered
under the empty-string projectId is found but never removed. -/
def cleanupStale (reg : ProjectRegistry) (sessionId : String) : ProjectRegistry :=
  match reg.findProjectIdBySession sessionId with
  | some staleProjectId =>
    if staleProjectId = "" then reg else (reg.remove staleProjectId).2
  | none => reg

/-- Error text sent to the operator when the resolved tmux session is gone. -/
def staleSessionMsg (sessionId projectName : String) : String :=
  "Error: tmux session \"" ++ sessionId ++ "\" not found for project \"" ++
    projectName ++ "\". The session may have been closed."

/-- `handleMessage(text)` of `telegram-poller.ts`: the full per-message reply
handler.  `env` is `process.env.TMUX_SESSION`, `exists?` the external
`tmux has-session` oracle.  Returns the emitted actions and new registry, or
`Except.error` when a JavaScript exception escapes (the poll loop catches
those). -/
def handleMessage (env : Option String) (exists? : String → Bool)
    (reg : ProjectRegistry) (text : String) :
    Except String (List Action × ProjectRegistry) :=
  let userInput := jsTrim text
  if userInput = "" then
    Except.ok ([], reg)
  else
    let upperInput := jsToUpper userInput
    if upperInput = "ON" then
      Except.ok
        ([Action.sendMsg "Notifications ARMED. You will receive alerts when Claude Code needs input."],
         reg.setArmed true)
    else if upperInput = "OFF" then
      Except.ok
        ([Action.sendMsg "Notifications DISARMED. No alerts will be sent until you text ON."],
         reg.setArmed false)
    else
      match routeReply reg env userInput with
      | RouteOutcome.invalidNumber n =>
        Except.ok
          ([Action.sendMsg ("Invalid project number " ++ toString n ++ ". Text a valid number + response.")],
           reg)
      | RouteOutcome.noActive =>
        Except.ok ([Action.sendMsg "No active projects. Send a notification first."], reg)
      | RouteOutcome.multipleActive =>
        Except.ok
          ([Action.sendMsg "Multiple projects active. Reply with number + response (e.g., '1 Y')."],
           reg)
      | RouteOutcome.target sessionId projectName response =>
        match TmuxService.hasSession exists? sessionId with
        | Except.error e => Except.error e
        | Except.ok false =>
          Except.ok ([Action.sendMsg (staleSessionMsg sessionId projectName)],
                     cleanupStale reg sessionId)
        | Except.ok true =>
          match TmuxService.sendKeys exists? sessionId response with
          | Except.error e => Except.error e
          | Except.ok _ => Except.ok ([Action.relayKeys sessionId response], reg)

/-- The TwiML help reply of `POST /sms/inbound` for an empty message body. -/
def smsHelpTwiml : String :=
  "<Response><Message>Please send a text response (e.g., Y, N, or custom text)</Message></Response>"

/-- The body of `POST /sms/inbound` (`sms.ts`) up to its `catch`:
sender validation, empty-body help reply, ON/OFF commands, routing, stale
cleanup and relay.  `authorizedPhone` is `process.env.USER_PHONE_NUMBER`,
`messageBody` the `Body` webhook field (possibly absent). -/
def smsInboundTry (authorizedPhone : Option String) (senderPhone : String)
    (messageBody : Option String) (env : Option String) (exists? : String → Bool)
    (reg : ProjectRegistry) : Except String (List Action × ProjectRegistry) :=
  match authorizedPhone with
  | none => Except.ok ([Action.twiml "<Response></Response>"], reg)
  | some authPhone =>
    if senderPhone ≠ authPhone then
      Except.ok ([Action.twiml "<Response></Response>"], reg)
    else
      let userInput := jsTrim (messageBody.getD "")
      if userInput = "" then
        Except.ok ([Action.twiml smsHelpTwiml], reg)
      else
        let upperInput := jsToUpper userInput
        if upperInput = "ON" then
          Except.ok
            ([Action.sendMsg "SMS notifications ARMED. You will receive alerts when Claude Code needs input.",
              Action.twiml "<Response></Response>"],
             reg.setArmed true)
        else if upperInput = "OFF" then
          Except.ok
            ([Action.sendMsg "SMS notifications DISARMED. No alerts will be sent until you text ON.",
              Action.twiml "<Response></Response>"],
             reg.setArmed false)
        else
          match routeReply reg env userInput with
          | RouteOutcome.invalidNumber n =>
            Except.ok
              ([Action.twiml ("<Response><Message>Invalid project number " ++ toString n ++
                 ". Text a valid number + response.</Message></Response>")], reg)
          | RouteOutcome.noActive =>
            Except.ok
              ([Action.twiml "<Response><Message>No active projects. Send a notification first.</Message></Response>"],
               reg)
          | RouteOutcome.multipleActive =>
            Except.ok
              ([Action.twiml "<Response><Message>Multiple projects active. Reply with number + response (e.g., '1 Y').</Message></Response>"],
               reg)
          | RouteOutcome.target sessionId projectName response =>
            match TmuxService.hasSession exists? sessionId with
            | Except.error e => Except.error e
            | Except.ok false =>
              Except.ok
                ([Action.sendMsg (staleSessionMsg sessionId projectName),
                  Action.twiml "<Response></Response>"],
                 cleanupStale reg sessionId)
            | Except.ok true =>
              match TmuxService.sendKeys exists? sessionId response with
              | Except.error e => Except.error e
              | Except.ok _ =>
                Except.ok ([Action.relayKeys sessionId response,
                            Action.twiml "<Response></Response>"], reg)

/-- `POST /sms/inbound` with its `catch`: an escaping exception is converted
into a 500 TwiML error response (the registry mutations on throwing paths all
precede the only throwing call, so the registry is unchanged there). -/
def smsInbound (authorizedPhone : Option String) (senderPhone : String)
    (messageBody : Option String) (env : Option String) (exists? : String → Bool)
    (reg : ProjectRegistry) : List Action × ProjectRegistry :=
  match smsInboundTry authorizedPhone senderPhone messageBody env exists? reg with
  | Except.ok r => r
  | Except.error _ =>
    ([Action.twiml "<Response><Message>Error processing your message - please try again</Message></Response>"],
     reg)

/-! ### Redaction (`src/lib/redact.ts`)

Each `REDACTION_PATTERNS` entry is a JavaScript regex applied with
`String.prototype.replace` under the `g` flag: scan left to right, replace
every (leftmost, non-overlapping) match with the fixed label.  Every pattern
is embedded as a matcher `List Char → Option Nat` giving the length of the
regex match starting at the current position; `globalReplace` supplies the
shared replace-all driver.  In all these patterns the greedy character-class
runs are followed by characters outside the class, so the usual backtracking
semantics collapse to maximal-run scans; the two genuinely backtracking spots
(the optional groups and the lazy body of the private-key block) are spelled
out as ordered alternative attempts. -/

/-- `[0-9A-Z]`. -/
def isUpperDigit (c : Char) : Bool := ('A' ≤ c && c ≤ 'Z') || c.isDigit

/-- `[a-zA-Z0-9]`. -/
def isAlnum (c : Char) : Bool := c.isAlpha || c.isDigit

/-- `[a-zA-Z0-9_]`. -/
def isAlnumU (c : Char) : Bool := isAlnum c || c = '_'

/-- `[a-zA-Z0-9_-]`. -/
def isJwtChar (c : Char) : Bool := isAlnum c || c = '_' || c = '-'

/-- `[a-zA-Z0-9@$!%*?&]`. -/
def isSecretChar (c : Char) : Bool :=
  isAlnum c || c = '@' || c = '$' || c = '!' || c = '%' || c = '*' || c = '?' || c = '&'

/-- `["']`. -/
def isQuote (c : Char) : Bool := c = '"' || c.toNat = 39

/-- `[^"']` (a negated class also matches line terminators). -/
def isNotQuote (c : Char) : Bool := !isQuote c

/-- ASCII lowercasing, for the patterns carrying the `i` flag. -/
def lcChar (c : Char) : Char :=
  if 'A' ≤ c && c ≤ 'Z' then Char.ofNat (c.toNat + 32) else c

/-- Consume an exact literal; returns the remainder. -/
def litScan (lit : List Char) (cs : List Char) : Option (List Char) :=
  match lit, cs with
  | [], rest => some rest
  | _ :: _, [] => none
  | l :: lt, c :: ct => if c = l then litScan lt ct else none

/-- Consume a literal case-insensitively (the literal is given lowercase). -/
def litScanCI (lit : List Char) (cs : List Char) : Option (List Char) :=
  match lit, cs with
  | [], rest => some rest
  | _ :: _, [] => none
  | l :: lt, c :: ct => if lcChar c = l then litScanCI lt ct else none

/-- Greedy `p{min,}`: the maximal run of class characters, requiring at least
`min` of them; returns run length and remainder. -/
def classAtLeast (p : Char → Bool) (min : Nat) (cs : List Char) :
    Option (Nat × List Char) :=
  let run := cs.takeWhile p
  if min ≤ run.length then some (run.length, cs.drop run.length) else none

/-- `p{n}`: exactly `n` class characters. -/
def classExact (p : Char → Bool) (n : Nat) (cs : List Char) : Option (List Char) :=
  let pre := cs.take n
  if pre.length = n && pre.all p then some (cs.drop n) else none

/-- Greedy `\s*`. -/
def wsStar (cs : List Char) : Nat × List Char :=
  let run := cs.takeWhile isJsWs
  (run.length, cs.drop run.length)

/-- A single character of a class. -/
def charIn (p : Char → Bool) (cs : List Char) : Option (List Char) :=
  match cs with
  | [] => none
  | c :: t => if p c then some t else none

/-- The shared suffix `\s*[=:]\s*["'](CLASS{min,})["']` of the assignment
patterns; returns the number of characters consumed. -/
def assignTail (p : Char → Bool) (min : Nat) (cs : List Char) : Option Nat :=
  let (w1, r1) := wsStar cs
  match charIn (fun c => c = '=' || c = ':') r1 with
  | none => none
  | some r2 =>
    let (w2, r3) := wsStar r2
    match charIn isQuote r3 with
    | none => none
    | some r4 =>
      match classAtLeast p min r4 with
      | none => none
      | some (v, r5) =>
        match charIn isQuote r5 with
        | none => none
        | some _ => some (w1 + 1 + w2 + 1 + v + 1)

/-- `/AKIA[0-9A-Z]{16}/`. -/
def mAwsKey (cs : List Char) : Option Nat :=
  match litScan "AKIA".toList cs with
  | none => none
  | some r => (classExact isUpperDigit 16 r).map (fun _ => 20)

/-- `/ghp_[a-zA-Z0-9]{36}/`. -/
def mGhp (cs : List Char) : Option Nat :=
  match litScan "ghp_".toList cs with
  | none => none
  | some r => (classExact isAlnum 36 r).map (fun _ => 40)

/-- `/gho_[a-zA-Z0-9]{36}/`. -/
def mGho (cs : List Char) : Option Nat :=
  match litScan "gho_".toList cs with
  | none => none
  | some r => (classExact isAlnum 36 r).map (fun _ => 40)

/-- `/github_pat_[a-zA-Z0-9_]{82}/`. -/
def mGithubPat (cs : List Char) : Option Nat :=
  match litScan "github_pat_".toList cs with
  | none => none
  | some r => (classExact isAlnumU 82 r).map (fun _ => 93)

/-- The tail `[a-zA-Z0-9]{20,}T3BlbkFJ[a-zA-Z0-9]{20,}` of the OpenAI key
pattern.  The marker characters are themselves alphanumeric, so the whole
match must lie inside the maximal alphanumeric run; backtracking of the first
greedy `{20,}` succeeds iff the marker occurs at some offset `m ≥ 20` with at
least 20 run characters after it, and the final greedy `{20,}` then extends
the match to the end of the run. -/
def openaiTail (cs : List Char) : Option Nat :=
  let run := cs.takeWhile isAlnum
  let len := run.length
  if (List.range (len + 1)).any
      (fun m => 20 ≤ m && m + 28 ≤ len && (run.drop m).take 8 == "T3BlbkFJ".toList) then
    some len
  else
    none

/-- `/sk-(?:proj-)?[a-zA-Z0-9]{20,}T3BlbkFJ[a-zA-Z0-9]{20,}/`. -/
def mOpenaiKey (cs : List Char) : Option Nat :=
  match litScan "sk-".toList cs with
  | none => none
  | some r1 =>
    match litScan "proj-".toList r1 with
    | some r2 =>
      match openaiTail r2 with
      | some t => some (8 + t)
      | none => (openaiTail r1).map (fun t => 3 + t)
    | none => (openaiTail r1).map (fun t => 3 + t)

/-- `/sk-proj-[a-zA-Z0-9]{48,}/`. -/
def mOpenaiProjKey (cs : List Char) : Option Nat :=
  match litScan "sk-proj-".toList cs with
  | none => none
  | some r => (classAtLeast isAlnum 48 r).map (fun p => 8 + p.1)

/-- `/sk-[a-zA-Z0-9]{32,}/`. -/
def mGenericSk (cs : List Char) : Option Nat :=
  match litScan "sk-".toList cs with
  | none => none
  | some r => (classAtLeast isAlnum 32 r).map (fun p => 3 + p.1)

/-- `/(?:api[_-]?key|apikey)\s*[=:]\s*["']([a-zA-Z0-9]{20,})["']/i`.  The
`apikey` alternative coincides with the empty-separator branch of the first
alternative, so the prefix is `api`, an optional `_`/`-`, then `key`. -/
def mApiKeyAssign (cs : List Char) : Option Nat :=
  match litScanCI "api".toList cs with
  | none => none
  | some r1 =>
    match r1 with
    | [] => none
    | c :: t =>
      if c = '_' || c = '-' then
        match litScanCI "key".toList t with
        | none => none
        | some r2 => (assignTail isAlnum 20 r2).map (fun n => 7 + n)
      else
        match litScanCI "key".toList r1 with
        | none => none
        | some r2 => (assignTail isAlnum 20 r2).map (fun n => 6 + n)

/-- `/eyJ[a-zA-Z0-9_-]+\.eyJ[a-zA-Z0-9_-]+\.[a-zA-Z0-9_-]+/`. -/
def mJwt (cs : List Char) : Option Nat :=
  match litScan "eyJ".toList cs with
  | none => none
  | some r1 =>
    match classAtLeast isJwtChar 1 r1 with
    | none => none
    | some (a, r2) =>
      match charIn (fun c => c = '.') r2 with
      | none => none
      | some r3 =>
        match litScan "eyJ".toList r3 with
        | none => none
        | some r4 =>
          match classAtLeast isJwtChar 1 r4 with
          | none => none
          | some (b, r5) =>
            match charIn (fun c => c = '.') r5 with
            | none => none
            | some r6 =>
              (classAtLeast isJwtChar 1 r6).map (fun p => 3 + a + 1 + 3 + b + 1 + p.1)

/-- `/(?:secret(?:[_-]key)?)\s*[=:]\s*["']([a-zA-Z0-9@$!%*?&]{8,})["']/i`.
The optional `[_-]key` group is attempted first (greedy); on failure of the
remainder the engine retries with the group skipped. -/
def mSecretAssign (cs : List Char) : Option Nat :=
  match litScanCI "secret".toList cs with
  | none => none
  | some r1 =>
    let withGroup : Option Nat :=
      match r1 with
      | [] => none
      | c :: t =>
        if c = '_' || c = '-' then
          match litScanCI "key".toList t with
          | none => none
          | some r2 => (assignTail isSecretChar 8 r2).map (fun n => 10 + n)
        else none
    match withGroup with
    | some n => some n
    | none => (assignTail isSecretChar 8 r1).map (fun n => 6 + n)

/-- `/(?:password|passwd|pwd)\s*[=:]\s*["']([^"']+)["']/i`: the alternatives
are attempted in source order, each with the full remainder. -/
def mPasswordAssign (cs : List Char) : Option Nat :=
  let tryAlt : List Char → Option Nat := fun alt =>
    match litScanCI alt cs with
    | none => none
    | some r => (assignTail isNotQuote 1 r).map (fun n => alt.length + n)
  match tryAlt "password".toList with
  | some n => some n
  | none =>
    match tryAlt "passwd".toList with
    | some n => some n
    | none => tryAlt "pwd".toList

/-- `/(?:(?:auth_|access_)?token)\s*[=:]\s*["']([a-zA-Z0-9]{20,})["']/i`:
prefix alternatives `auth_`, `access_`, none, in engine order. -/
def mTokenAssign (cs : List Char) : Option Nat :=
  let tryAlt : List Char → Option Nat := fun kw =>
    match litScanCI kw cs with
    | none => none
    | some r => (assignTail isAlnum 20 r).map (fun n => kw.length + n)
  match tryAlt "auth_token".toList with
  | some n => some n
  | none =>
    match tryAlt "access_token".toList with
    | some n => some n
    | none => tryAlt "token".toList

/-- The end marker `-----END (?:RSA |EC )?PRIVATE KEY-----` of the private-key
pattern; returns its length when it matches here. -/
def pkEnd (cs : List Char) : Option Nat :=
  match litScan "-----END ".toList cs with
  | none => none
  | some r1 =>
    match litScan "RSA ".toList r1 with
    | some r2 => (litScan "PRIVATE KEY-----".toList r2).map (fun _ => 29)
    | none =>
      match litScan "EC ".toList r1 with
      | some r2 => (litScan "PRIVATE KEY-----".toList r2).map (fun _ => 28)
      | none => (litScan "PRIVATE KEY-----".toList r1).map (fun _ => 25)

/-- The lazy `[\s\S]*?` search: smallest offset at which the end marker
matches, together with the marker length. -/
def findPkEnd : List Char → Option (Nat × Nat)
  | [] =>
    match pkEnd [] with
    | some e => some (0, e)
    | none => none
  | c :: t =>
    match pkEnd (c :: t) with
    | some e => some (0, e)
    | none => (findPkEnd t).map (fun p => (p.1 + 1, p.2))

/-- `/-----BEGIN (?:RSA |EC )?PRIVATE KEY-----[\s\S]*?-----END (?:RSA |EC )?PRIVATE KEY-----/`. -/
def mPrivateKey (cs : List Char) : Option Nat :=
  match litScan "-----BEGIN ".toList cs with
  | none => none
  | some r1 =>
    let afterHeader : Option (Nat × List Char) :=
      match litScan "RSA ".toList r1 with
      | some r2 => (litScan "PRIVATE KEY-----".toList r2).map (fun r3 => (31, r3))
      | none =>
        match litScan "EC ".toList r1 with
        | some r2 => (litScan "PRIVATE KEY-----".toList r2).map (fun r3 => (30, r3))
        | none => (litScan "PRIVATE KEY-----".toList r1).map (fun r3 => (27, r3))
    match afterHeader with
    | none => none
    | some (h, body) => (findPkEnd body).map (fun p => h + p.1 + p.2)

/-- The `String.prototype.replace` driver for a `g`-flagged regex: at each
position take the (leftmost) match if any, emit the fixed label and continue
after the match, else emit the character.  The fuel argument is the remaining
length, which bounds the recursion. -/
def grAux (tryM : List Char → Option Nat) (repl : List Char) :
    Nat → List Char → List Char
  | _, [] => []
  | 0, cs => cs
  | fuel + 1, c :: t =>
    match tryM (c :: t) with
    | some (n + 1) => repl ++ grAux tryM repl fuel (t.drop n)
    | _ => c :: grAux tryM repl fuel t

/-- `s.replace(pattern, label)` with the `g` flag. -/
def globalReplace (tryM : List Char → Option Nat) (repl : String) (s : String) :
    String :=
  String.mk (grAux tryM repl.toList s.toList.length s.toList)

/-- `redactSensitiveData(input)`: the thirteen `REDACTION_PATTERNS` applied in
source order, each as a global replace over the previous output. -/
def redactSensitiveData (input : String) : String :=
  let output := globalReplace mAwsKey "[REDACTED_AWS_KEY]" input
  let output := globalReplace mGhp "[REDACTED_GITHUB_TOKEN]" output
  let output := globalReplace mGho "[REDACTED_GITHUB_TOKEN]" output
  let output := globalReplace mGithubPat "[REDACTED_GITHUB_TOKEN]" output
  let output := globalReplace mOpenaiKey "[REDACTED_OPENAI_KEY]" output
  let output := globalReplace mOpenaiProjKey "[REDACTED_OPENAI_KEY]" output
  let output := globalReplace mGenericSk "[REDACTED_API_KEY]" output
  let output := globalReplace mApiKeyAssign "[REDACTED_API_KEY]" output
  let output := globalReplace mJwt "[REDACTED_JWT]" output
  let output := globalReplace mSecretAssign "[REDACTED_SECRET]" output
  let output := globalReplace mPasswordAssign "[REDACTED_PASSWORD]" output
  let output := globalReplace mTokenAssign "[REDACTED_TOKEN]" output
  let output := globalReplace mPrivateKey "[REDACTED_PRIVATE_KEY]" output
  output

/-! ### Sanitisation pipeline (`src/lib/sanitize.ts`) -/

/-- Tail of a CSI sequence: parameter bytes up to and including the final byte
in `0x40`–`0x7e`. -/
def dropCsiTail : List Char → List Char
  | [] => []
  | c :: t => if 0x40 ≤ c.toNat && c.toNat ≤ 0x7e then t else dropCsiTail t

/-- Tail of an OSC sequence: swallowed up to and including the BEL terminator. -/
def dropOscTail : List Char → List Char
  | [] => []
  | c :: t => if c.toNat = 0x07 then t else dropOscTail t

/-- Worker for `stripAnsiCodes`; the fuel argument bounds the recursion by the
remaining length. -/
def stripAnsiAux (fuel : Nat) (cs : List Char) : List Char :=
  match fuel, cs with
  | _, [] => []
  | 0, rest => rest
  | fuel + 1, c :: t =>
    if c.toNat = 0x1b then
      match t with
      | [] => []
      | c2 :: t2 =>
        if c2 = '[' then stripAnsiAux fuel (dropCsiTail t2)
        else if c2 = ']' then stripAnsiAux fuel (dropOscTail t2)
        else stripAnsiAux fuel t2
    else
      c :: stripAnsiAux fuel t

/-- Modelled from the spec: Redactor stage 1, "strip terminal escape/control
sequences" (§4.5).  The implementation behind `stripAnsiCodes` is the external
`strip-ansi` npm dependency, which is not part of the sources; this model
removes ESC-introduced CSI sequences (up to their final byte), OSC sequences
(up to BEL) and other two-character escape sequences, and is the identity on
text containing no ESC character. -/
def stripAnsiCodes (text : String) : String :=
  String.mk (stripAnsiAux text.toList.length text.toList)

/-- `formatForSMS(text, maxChars)` (default `maxChars` is 450 at call sites):
strip ANSI, redact, drop non-ASCII, trim, then truncate with a `"..."`
marker. -/
def formatForSMS (text : String) (maxChars : Nat) : String :=
  let cleaned := stripAnsiCodes text
  let cleaned := redactSensitiveData cleaned
  let cleaned := String.mk (cleaned.toList.filter (fun c => c.toNat ≤ 0x7f))
  let cleaned := jsTrim cleaned
  if maxChars < cleaned.length then
    String.mk (cleaned.toList.take maxChars) ++ "..."
  else
    cleaned

/-- Modelled from the spec: the chat-channel formatting used by the Telegram
notification route (`formatForMessage`), whose definition is not among the
sources.  Per §4.5 it is the same ordered pipeline with the encoding
normalisation stage skipped ("chat-style channels may skip this stage"):
strip, redact, trim, truncate. -/
def formatForMessage (text : String) (maxChars : Nat) : String :=
  let cleaned := stripAnsiCodes text
  let cleaned := redactSensitiveData cleaned
  let cleaned := jsTrim cleaned
  if maxChars < cleaned.length then
    String.mk (cleaned.toList.take maxChars) ++ "..."
  else
    cleaned

/-- `true` iff some contiguous substring of 8 or more characters of `secret`
occurs in `s` (it suffices to check the 8-character windows). -/
def containsSecretRun (secret s : String) : Bool :=
  (List.range secret.length).any (fun i =>
    let sub := (secret.toList.drop i).take 8
    sub.length = 8 && decide (sub <:+: s.toList))

/-! ### Notification route (`POST /api/notify`, Telegram variant)

The route returns 200 immediately and then processes the event; the async
block is embedded as `notifyStep`.  `capture` is the `tmuxService.captureContext`
outcome (`none` models the call throwing, which the route converts into the
generic placeholder context). -/

/-- The notification hook payload fields the route reads. -/
structure NotifyPayload where
  session_id : String
  project_id : Option String
  project_name : Option String
  tmux_session : Option String
  deriving Repr, DecidableEq

/-- `payload.project_id || payload.session_id`. -/
def effectiveProjectId (p : NotifyPayload) : String :=
  jsOrStr p.project_id p.session_id

/-- `payload.tmux_session || payload.session_id || process.env.TMUX_SESSION`
(a falsy final result is the "no tmux session identifier" case). -/
def effectiveSessionId (env : Option String) (p : NotifyPayload) : String :=
  jsOrStr p.tmux_session (jsOrStr (some p.session_id) (jsOrStr env ""))

/-- The one-time welcome message (RELAY-10). -/
def welcomeMessage (projectName : String) : String :=
  "Welcome! \"" ++ projectName ++
    "\" registered with Claude SMS Connect.\n\nReply with \"N Y\" where N is the project number.\nText ON to arm alerts, OFF to disarm."

/-- The single-project notification template. -/
def singleProjectMsg (formattedContext : String) : String :=
  "Claude Code needs input:\n\n" ++ formattedContext ++ "\n\nReply Y/N or text response"

/-- `activeProjects.map((p, i) => ...)`: the 1-indexed numbered list lines. -/
def numberedLines (ps : List ProjectMetadata) : List String :=
  ps.enum.map (fun e => "[" ++ toString (e.1 + 1) ++ "] " ++ e.2.projectName)

/-- `Array.prototype.join('\n')`. -/
def joinNL : List String → String
  | [] => ""
  | [x] => x
  | x :: y :: t => x ++ "\n" ++ joinNL (y :: t)

/-- The numbered multi-project notification template (RELAY-07). -/
def multiProjectMsg (ps : List ProjectMetadata) (projectName formattedContext : String) :
    String :=
  joinNL (numberedLines ps) ++ "\n\nLatest (" ++ projectName ++ "):\n" ++
    formattedContext ++ "\n\nReply: N RESPONSE (e.g., \"1 Y\")"

/-- The async body of `POST /api/notify`: extract ids, register, gate on the
armed flag, send the welcome for first registrations, gate on the throttle,
record the notification, capture (or substitute) context and send the
formatted message. -/
def notifyStep (env : Option String) (reg : ProjectRegistry) (p : NotifyPayload)
    (now : Nat) (capture : String → Option String) : List Action × ProjectRegistry :=
  let projectId := effectiveProjectId p
  let sessionId := effectiveSessionId env p
  if sessionId = "" then
    ([], reg)
  else
    let projectName := jsOrStr p.project_name projectId
    let rp := reg.register projectId sessionId projectName now
    let isNew := rp.1
    let reg1 := rp.2
    if !reg1.isArmed then
      ([], reg1)
    else
      let welcomeActs := if isNew then [Action.sendMsg (welcomeMessage projectName)] else []
      if !reg1.canNotify projectId now then
        (welcomeActs, reg1)
      else
        let reg2 := reg1.recordNotification projectId now
        let context :=
          match capture sessionId with
          | some out => out
          | none => "Claude Code needs input in session \"" ++ sessionId ++ "\""
        let activeProjects := reg2.getActiveProjects
        let message :=
          if activeProjects.length = 1 then
            singleProjectMsg (formatForMessage context 3500)
          else
            multiProjectMsg activeProjects projectName (formatForMessage context 1500)
        (welcomeActs ++ [Action.sendMsg message], reg2)

/-- An external stimulus of the running system: an agent notification event,
or an operator ON/OFF reply (which toggles the armed flag and confirms). -/
inductive SysEvent where
  | notify (p : NotifyPayload) (now : Nat) (capture : String → Option String)
  | arm (b : Bool)

/-- One system step per stimulus. -/
def sysStep (env : Option String) (reg : ProjectRegistry) : SysEvent → List Action × ProjectRegistry
  | SysEvent.notify p now capture => notifyStep env reg p now capture
  | SysEvent.arm b =>
    ([Action.sendMsg
        (if b then "Notifications ARMED. You will receive alerts when Claude Code needs input."
         else "Notifications DISARMED. No alerts will be sent until you text ON.")],
     reg.setArmed b)

/-- Run a stimulus sequence, concatenating the emitted actions. -/
def sysRun (env : Option String) (reg : ProjectRegistry) : List SysEvent → List Action × ProjectRegistry
  | [] => ([], reg)
  | e :: t =>
    let r := sysStep env reg e
    let rest := sysRun env r.2 t
    (r.1 ++ rest.1, rest.2)

/-! ### Map and string lemmas -/

theorem mapGet_mapSet (l : List (String × ProjectMetadata)) (k₁ : String)
    (v : ProjectMetadata) (k₂ : String) :
    mapGet (mapSet l k₁ v) k₂ = if k₁ = k₂ then some v else mapGet l k₂ := by
  induction l with
  | nil =>
    by_cases h : k₁ = k₂ <;> simp [mapSet, mapGet, h]
  | cons e t ih =>
    obtain ⟨k₀, v₀⟩ := e
    simp only [mapSet]
    by_cases h0 : k₀ = k₁
    · rw [if_pos h0]
      simp only [mapGet]
      by_cases h2 : k₀ = k₂
      · rw [if_pos h2, if_pos (h0.symm.trans h2)]
      · have hn : ¬ k₁ = k₂ := fun h => h2 (h0.trans h)
        rw [if_neg h2, if_neg hn, if_neg h2]
    · rw [if_neg h0]
      simp only [mapGet]
      by_cases h2 : k₀ = k₂
      · have hn : ¬ k₁ = k₂ := fun h => h0 (h2.trans h.symm)
        rw [if_pos h2, if_neg hn, if_pos h2]
      · rw [if_neg h2, if_neg h2, ih]

theorem mapGet_none_of_not_mem_keys (l : List (String × ProjectMetadata)) (k : String)
    (h : ¬ k ∈ l.map Prod.fst) : mapGet l k = none := by
  induction l with
  | nil => simp [mapGet]
  | cons e t ih =>
    obtain ⟨k₀, v₀⟩ := e
    simp only [List.map_cons, List.mem_cons] at h
    push_neg at h
    have hne : ¬ k₀ = k := fun hk => h.1 hk.symm
    simp [mapGet, hne, ih h.2]

theorem mapGet_mapDelete_self (l : List (String × ProjectMetadata)) (k : String)
    (hnd : (l.map Prod.fst).Nodup) :
    mapGet (mapDelete l k) k = none := by
  induction l with
  | nil => simp [mapDelete, mapGet]
  | cons e t ih =>
    obtain ⟨k₀, v₀⟩ := e
    simp only [List.map_cons, List.nodup_cons] at hnd
    by_cases h0 : k₀ = k
    · rw [mapDelete, if_pos h0]
      exact mapGet_none_of_not_mem_keys t k (h0 ▸ hnd.1)
    · simp [mapDelete, mapGet, h0, ih hnd.2]

theorem register_armed (reg : ProjectRegistry) (pid sid nm : String) (now : Nat) :
    (reg.register pid sid nm now).2.armed = reg.armed := rfl

theorem recordNotification_armed (reg : ProjectRegistry) (pid : String) (now : Nat) :
    (reg.recordNotification pid now).armed = reg.armed := by
  unfold ProjectRegistry.recordNotification
  cases mapGet reg.projects pid <;> rfl

/-- The head of a `dropWhile` result never satisfies the predicate. -/
theorem dropWhile_head_false (p : Char → Bool) (l : List Char) (a : Char) (t : List Char)
    (h : l.dropWhile p = a :: t) : p a = false := by
  induction l with
  | nil => simp [List.dropWhile] at h
  | cons c r ih =>
    by_cases hc : p c
    · exact ih (by simpa [List.dropWhile, hc] using h)
    · rw [List.dropWhile_cons_of_neg (by simpa using hc)] at h
      cases h
      simpa using hc

theorem dropWhile_dropWhile (p : Char → Bool) (l : List Char) :
    (l.dropWhile p).dropWhile p = l.dropWhile p := by
  cases hd : l.dropWhile p with
  | nil => simp
  | cons a t =>
    have := dropWhile_head_false p l a t hd
    simp [List.dropWhile, this]

/-- One trimming pass is a fixed point of another, at the list level. -/
theorem trimCore_idem (l₀ : List Char) :
    ((((((l₀.dropWhile isJsWs).reverse.dropWhile isJsWs).reverse).dropWhile
        isJsWs).reverse.dropWhile isJsWs).reverse) =
      ((l₀.dropWhile isJsWs).reverse.dropWhile isJsWs).reverse := by
  have hA : (((l₀.dropWhile isJsWs).reverse.dropWhile isJsWs).reverse).dropWhile isJsWs =
      ((l₀.dropWhile isJsWs).reverse.dropWhile isJsWs).reverse := by
    cases hr : ((l₀.dropWhile isJsWs).reverse.dropWhile isJsWs).reverse with
    | nil => rfl
    | cons a t =>
      have hsfx : (l₀.dropWhile isJsWs).reverse.dropWhile isJsWs <:+
          (l₀.dropWhile isJsWs).reverse := List.dropWhile_suffix _
      have hpfx : ((l₀.dropWhile isJsWs).reverse.dropWhile isJsWs).reverse <+:
          l₀.dropWhile isJsWs := by
        have := List.reverse_prefix.mpr hsfx
        simpa using this
      obtain ⟨u, hu⟩ := hpfx
      rw [hr] at hu
      have hfa : isJsWs a = false :=
        dropWhile_head_false isJsWs l₀ a (t ++ u) hu.symm
      exact List.dropWhile_cons_of_neg (by simp [hfa])
  rw [hA, List.reverse_reverse, dropWhile_dropWhile]

/-- `String.prototype.trim` is idempotent. -/
theorem jsTrim_idem (s : String) : jsTrim (jsTrim s) = jsTrim s := by
  unfold jsTrim
  exact congrArg String.mk (trimCore_idem s.toList)

theorem str_data_append (s t : String) : (s ++ t).data = s.data ++ t.data := rfl

/-- Heads of appended strings: a nonempty left part decides the head. -/
theorem str_head_append (s t : String) (a : Char) (r : List Char)
    (h : s.data = a :: r) : (s ++ t).data.head? = some a := by
  rw [str_data_append, h]
  rfl

/-! ### Stepping lemmas for the reply handler -/

theorem hasSession_eval (exists? : String → Bool) (session : String)
    (hv : TmuxService.validateSessionName session = true) :
    TmuxService.hasSession exists? session = Except.ok (exists? session) := by
  unfold TmuxService.hasSession
  rw [if_pos hv]

theorem sendKeys_eval (exists? : String → Bool) (session input : String)
    (hv : TmuxService.validateSessionName session = true)
    (he : exists? session = true) :
    TmuxService.sendKeys exists? session input =
      Except.ok [["send-keys", "-t", session, "-l", input],
                 ["send-keys", "-t", session, "Enter"]] := by
  unfold TmuxService.sendKeys
  rw [if_pos hv, hasSession_eval exists? session hv, he]

theorem handleMessage_routes (env : Option String) (exists? : String → Bool)
    (reg : ProjectRegistry) (text : String)
    (h0 : ¬ jsTrim text = "")
    (h1 : ¬ jsToUpper (jsTrim text) = "ON")
    (h2 : ¬ jsToUpper (jsTrim text) = "OFF") :
    handleMessage env exists? reg text =
      (match routeReply reg env (jsTrim text) with
       | RouteOutcome.invalidNumber n =>
         Except.ok
           ([Action.sendMsg ("Invalid project number " ++ toString n ++ ". Text a valid number + response.")],
            reg)
       | RouteOutcome.noActive =>
         Except.ok ([Action.sendMsg "No active projects. Send a notification first."], reg)
       | RouteOutcome.multipleActive =>
         Except.ok
           ([Action.sendMsg "Multiple projects active. Reply with number + response (e.g., '1 Y')."],
            reg)
       | RouteOutcome.target sessionId projectName response =>
         match TmuxService.hasSession exists? sessionId with
         | Except.error e => Except.error e
         | Except.ok false =>
           Except.ok ([Action.sendMsg (staleSessionMsg sessionId projectName)],
                      cleanupStale reg sessionId)
         | Except.ok true =>
           match TmuxService.sendKeys exists? sessionId response with
           | Except.error e => Except.error e
           | Except.ok _ => Except.ok ([Action.relayKeys sessionId response], reg)) := by
  unfold handleMessage
  rw [if_neg h0, if_neg h1, if_neg h2]

/-! ### Welcome-message lemmas for the notification route -/

theorem welcome_head (s : String) : (welcomeMessage s).data.head? = some 'W' := rfl

theorem single_ne_welcome (fc s : String) : singleProjectMsg fc ≠ welcomeMessage s := by
  intro h
  have h1 : (singleProjectMsg fc).data.head? = (welcomeMessage s).data.head? :=
    congrArg (fun x => x.data.head?) h
  rw [welcome_head] at h1
  exact absurd (Option.some.inj (h1.symm.trans (rfl : (singleProjectMsg fc).data.head? = some 'C')).symm) (by decide)

theorem multi_ne_welcome (ps : List ProjectMetadata) (pn fc s : String) :
    multiProjectMsg ps pn fc ≠ welcomeMessage s := by
  intro h
  have h1 : (multiProjectMsg ps pn fc).data.head? = (welcomeMessage s).data.head? :=
    congrArg (fun x => x.data.head?) h
  rw [welcome_head] at h1
  match ps with
  | [] =>
    exact absurd (Option.some.inj ((rfl : (multiProjectMsg [] pn fc).data.head? = some '\x0a').symm.trans h1)) (by decide)
  | [a] =>
    exact absurd (Option.some.inj ((rfl : (multiProjectMsg [a] pn fc).data.head? = some '[').symm.trans h1)) (by decide)
  | a :: b :: t =>
    exact absurd (Option.some.inj ((rfl : (multiProjectMsg (a :: b :: t) pn fc).data.head? = some '[').symm.trans h1)) (by decide)

theorem armConfirm_ne_welcome (b : Bool) (s : String) :
    (if b then "Notifications ARMED. You will receive alerts when Claude Code needs input."
     else "Notifications DISARMED. No alerts will be sent until you text ON.") ≠
      welcomeMessage s := by
  intro h
  have h1 : (if b then "Notifications ARMED. You will receive alerts when Claude Code needs input."
      else ("Notifications DISARMED. No alerts will be sent until you text ON." : String)).data.head? =
      (welcomeMessage s).data.head? := by rw [h]
  rw [welcome_head] at h1
  cases b with
  | true => exact absurd (Option.some.inj ((rfl : ("Notifications ARMED. You will receive alerts when Claude Code needs input." : String).data.head? = some 'N').symm.trans h1)) (by decide)
  | false => exact absurd (Option.some.inj ((rfl : ("Notifications DISARMED. No alerts will be sent until you text ON." : String).data.head? = some 'N').symm.trans h1)) (by decide)

theorem register_get_isSome (reg : ProjectRegistry) (pid' sid nm : String) (now : Nat)
    (pid : String) (h : pid' = pid ∨ (reg.get pid).isSome = true) :
    (((reg.register pid' sid nm now).2).get pid).isSome = true := by
  show (mapGet (mapSet reg.projects pid' _) pid).isSome = true
  rw [mapGet_mapSet]
  rcases h with h | h
  · rw [if_pos h]; rfl
  · by_cases hp : pid' = pid
    · rw [if_pos hp]; rfl
    · rw [if_neg hp]; exact h

theorem recordNotification_get_isSome (reg : ProjectRegistry) (pid' : String) (now : Nat)
    (pid : String) (h : (reg.get pid).isSome = true) :
    ((reg.recordNotification pid' now).get pid).isSome = true := by
  unfold ProjectRegistry.recordNotification
  cases hm : mapGet reg.projects pid' with
  | none => exact h
  | some pr =>
    show (mapGet (mapSet reg.projects pid' _) pid).isSome = true
    rw [mapGet_mapSet]
    by_cases hp : pid' = pid
    · rw [if_pos hp]; rfl
    · rw [if_neg hp]; exact h

theorem notifyStep_get_isSome (env : Option String) (reg : ProjectRegistry)
    (p : NotifyPayload) (now : Nat) (cap : String → Option String) (pid : String)
    (h : (pid = effectiveProjectId p ∧ ¬ effectiveSessionId env p = "") ∨
      (reg.get pid).isSome = true) :
    ((notifyStep env reg p now cap).2.get pid).isSome = true := by
  simp only [notifyStep]
  by_cases hs : effectiveSessionId env p = ""
  · rw [if_pos hs]
    rcases h with ⟨_, hne⟩ | h
    · exact absurd hs hne
    · exact h
  · rw [if_neg hs]
    have hreg : (((reg.register (effectiveProjectId p) (effectiveSessionId env p)
        (jsOrStr p.project_name (effectiveProjectId p)) now).2).get pid).isSome = true := by
      apply register_get_isSome
      rcases h with ⟨hp, _⟩ | h
      · exact Or.inl hp.symm
      · exact Or.inr h
    split
    · exact hreg
    · split
      · exact hreg
      · exact recordNotification_get_isSome _ _ _ _ hreg

theorem notifyStep_trace_disarmed (env : Option String) (reg : ProjectRegistry)
    (p : NotifyPayload) (now : Nat) (cap : String → Option String)
    (hdis : reg.armed = false) :
    (notifyStep env reg p now cap).1 = [] := by
  simp only [notifyStep]
  by_cases hs : effectiveSessionId env p = ""
  · rw [if_pos hs]
  · rw [if_neg hs]
    simp [ProjectRegistry.isArmed, register_armed, hdis]

theorem notifyStep_no_welcome (env : Option String) (reg : ProjectRegistry)
    (p : NotifyPayload) (now : Nat) (cap : String → Option String)
    (hreg : (reg.get (effectiveProjectId p)).isSome = true) :
    ∀ a ∈ (notifyStep env reg p now cap).1,
      (∃ fc, a = Action.sendMsg (singleProjectMsg fc)) ∨
      (∃ ps pn fc, a = Action.sendMsg (multiProjectMsg ps pn fc)) := by
  intro a ha
  have hnew : (reg.register (effectiveProjectId p) (effectiveSessionId env p)
      (jsOrStr p.project_name (effectiveProjectId p)) now).1 = false := by
    rcases Option.isSome_iff_exists.mp hreg with ⟨m, hm⟩
    have hm2 : mapGet reg.projects (effectiveProjectId p) = some m := hm
    show (mapGet reg.projects (effectiveProjectId p)).isNone = false
    rw [hm2]
    rfl
  simp only [notifyStep] at ha
  by_cases hs : effectiveSessionId env p = ""
  · rw [if_pos hs] at ha
    simp at ha
  · rw [if_neg hs, hnew] at ha
    simp only [Bool.false_eq_true, if_false] at ha
    split at ha
    · simp at ha
    · split at ha
      · simp at ha
      · rw [List.nil_append] at ha
        rcases List.mem_singleton.mp ha with rfl
        split
        · exact Or.inl ⟨_, rfl⟩
        · exact Or.inr ⟨_, _, _, rfl⟩

theorem sysRun_no_welcome (env : Option String) (pid : String) (evs : List SysEvent) :
    ∀ reg : ProjectRegistry, (reg.get pid).isSome = true →
    (∀ e ∈ evs, (∃ b, e = SysEvent.arm b) ∨
      ∃ q n c, e = SysEvent.notify q n c ∧ effectiveProjectId q = pid) →
    ∀ a ∈ (sysRun env reg evs).1, ∀ s, a ≠ Action.sendMsg (welcomeMessage s) := by
  induction evs with
  | nil =>
    intro reg _ _ a ha
    simp [sysRun] at ha
  | cons e t ih =>
    intro reg hreg hevs a ha s
    simp only [sysRun] at ha
    rw [List.mem_append] at ha
    have hinv : ((sysStep env reg e).2.get pid).isSome = true := by
      rcases hevs e (List.mem_cons_self _ _) with ⟨b, rfl⟩ | ⟨q, n, c, rfl, hq⟩
      · simpa [sysStep, ProjectRegistry.setArmed, ProjectRegistry.get] using hreg
      · exact notifyStep_get_isSome env reg q n c pid (Or.inr hreg)
    rcases ha with ha | ha
    · rcases hevs e (List.mem_cons_self _ _) with ⟨b, rfl⟩ | ⟨q, n, c, rfl, hq⟩
      · simp only [sysStep, List.mem_singleton] at ha
        rw [ha]
        intro hcontra
        exact armConfirm_ne_welcome b s (Action.sendMsg.inj hcontra)
      · have hq2 : (reg.get (effectiveProjectId q)).isSome = true := by rw [hq]; exact hreg
        rcases notifyStep_no_welcome env reg q n c hq2 a ha with ⟨fc, rfl⟩ | ⟨ps, pn, fc, rfl⟩
        · intro hcontra
          exact single_ne_welcome fc s (Action.sendMsg.inj hcontra)
        · intro hcontra
          exact multi_ne_welcome ps pn fc s (Action.sendMsg.inj hcontra)
    · exact ih (sysStep env reg e).2 hinv
        (fun e2 he2 => hevs e2 (List.mem_cons_of_mem _ he2)) a ha s

theorem handleMessage_of_target (env : Option String) (exists? : String → Bool)
    (reg : ProjectRegistry) (text sid pn resp : String)
    (h0 : ¬ jsTrim text = "")
    (h1 : ¬ jsToUpper (jsTrim text) = "ON")
    (h2 : ¬ jsToUpper (jsTrim text) = "OFF")
    (hr : routeReply reg env (jsTrim text) = RouteOutcome.target sid pn resp)
    (hv : TmuxService.validateSessionName sid = true) :
    handleMessage env exists? reg text =
      (if exists? sid then Except.ok ([Action.relayKeys sid resp], reg)
       else Except.ok ([Action.sendMsg (staleSessionMsg sid pn)], cleanupStale reg sid)) := by
  rw [handleMessage_routes env exists? reg text h0 h1 h2, hr]
  cases he : exists? sid with
  | false =>
    rw [if_neg (by simp [he])]
    simp only [hasSession_eval exists? sid hv, he]
  | true =>
    rw [if_pos (by simp [he])]
    simp only [hasSession_eval exists? sid hv, he, sendKeys_eval exists? sid resp hv he]

/-! ### Reply-routing helper lemmas -/

theorem parseNumbered_none_resp (u : String)
    (hp : (parseNumberedResponse u).projectIndex = none) :
    (parseNumberedResponse u).response = jsTrim u := by
  simp only [parseNumberedResponse] at hp ⊢
  split at hp
  · simp at hp
  · rename_i hcond
    rw [if_neg hcond]

theorem routeReply_of_parse_none (reg : ProjectRegistry) (env : Option String)
    (u : String) (hp : (parseNumberedResponse u).projectIndex = none) :
    routeReply reg env u =
      (match reg.getActiveProjects with
       | [] =>
         (match env with
          | none => RouteOutcome.noActive
          | some fb => RouteOutcome.target fb fb (parseNumberedResponse u).response)
       | [p] => RouteOutcome.target p.sessionId p.projectName (parseNumberedResponse u).response
       | _ => RouteOutcome.multipleActive) := by
  simp only [routeReply, hp]

theorem routeReply_of_parse_some (reg : ProjectRegistry) (env : Option String)
    (u : String) (idx : Int) (resp : String)
    (hp : (parseNumberedResponse u).projectIndex = some idx)
    (hresp : (parseNumberedResponse u).response = resp) :
    routeReply reg env u =
      (match reg.getByIndex idx with
       | none => RouteOutcome.invalidNumber (idx + 1)
       | some project => RouteOutcome.target project.sessionId project.projectName resp) := by
  simp only [routeReply, hp, hresp]

/-! ### Claim C2 -/

/-- C2 counterexample: a `register` call whose relay target contains `;`
(outside `[A-Za-z0-9_-]`) does not fail: it returns `isNewRegistration = true`
and stores the session, changing the registry. -/
theorem register_accepts_invalid_target_cx :
    ProjectRegistry.register ProjectRegistry.init "p1" "bad;name" "alpha" 7 =
      (true,
       { projects :=
           [("p1",
             { sessionId := "bad;name", projectName := "alpha", lastNotified := 0,
               registeredAt := 7 })],
         armed := false }) ∧
    (ProjectRegistry.register ProjectRegistry.init "p1" "bad;name" "alpha" 7).2 ≠
      ProjectRegistry.init := by
  exact ⟨rfl, by decide⟩

/-- C2 amended: `register` performs no relay-target validation — for every
target string containing a character outside `[A-Za-z0-9_-]` the session is
stored anyway (with that target); the allow-list is enforced only at tmux use
time, where `validateSessionName` rejects the target, so `hasSession` (and
hence every delivery) throws instead of reaching tmux. -/
theorem register_unvalidated_target_stored_validate_rejects
    (reg : ProjectRegistry) (pid sid nm : String) (now : Nat) (c : Char)
    (hc : c ∈ sid.toList) (hbad : TmuxService.validChar c = false) :
    (∃ p, (reg.register pid sid nm now).2.get pid = some p ∧ p.sessionId = sid) ∧
    TmuxService.validateSessionName sid = false ∧
    (∀ exists? : String → Bool,
      TmuxService.hasSession exists? sid = Except.error (TmuxService.invalidNameMsg sid)) := by
  have hval : TmuxService.validateSessionName sid = false := by
    unfold TmuxService.validateSessionName
    have : sid.toList.all TmuxService.validChar = false := by
      rw [List.all_eq_false]
      exact ⟨c, hc, by simp [hbad]⟩
    rw [this]
    simp
  refine ⟨?_, hval, ?_⟩
  · refine ⟨ProjectMetadata.mk sid nm
        (((mapGet reg.projects pid).map (·.lastNotified)).getD 0)
        (((mapGet reg.projects pid).map (·.registeredAt)).getD now), ?_, rfl⟩
    show mapGet (mapSet reg.projects pid _) pid = _
    rw [mapGet_mapSet, if_pos rfl]
  · intro exists?
    unfold TmuxService.hasSession
    rw [hval]
    simp

/-- C2 amended witness at the relay target `"bad;name"`. -/
theorem register_unvalidated_target_witness :
    TmuxService.validateSessionName "bad;name" = false :=
  (register_unvalidated_target_stored_validate_rejects ProjectRegistry.init "p1" "bad;name"
    "alpha" 7 ';' (by decide) (by decide)).2.1

/-! ### Claim C3 -/

/-- C3: for every session name that validates and exists and every payload
(line terminators, tmux key names and shell metacharacters included),
`sendKeys` performs exactly two separate tmux invocations: the literal
`send-keys -l` with the payload as one argument, then a separate non-literal
`send-keys Enter`; payload and submit are never concatenated. -/
theorem sendKeys_literal_then_separate_enter (exists? : String → Bool)
    (session input : String)
    (hv : TmuxService.validateSessionName session = true)
    (he : exists? session = true) :
    TmuxService.sendKeys exists? session input =
      Except.ok [["send-keys", "-t", session, "-l", input],
                 ["send-keys", "-t", session, "Enter"]] :=
  sendKeys_eval exists? session input hv he

/-- C3 witness: a payload containing a newline, the tmux key name `Enter` and
shell metacharacters is still delivered as a single literal argument plus a
separate submit. -/
theorem sendKeys_literal_then_separate_enter_witness :
    TmuxService.sendKeys (fun _ => true) "proj-a" "C-c Enter\n$(rm -rf /)" =
      Except.ok [["send-keys", "-t", "proj-a", "-l", "C-c Enter\n$(rm -rf /)"],
                 ["send-keys", "-t", "proj-a", "Enter"]] :=
  sendKeys_literal_then_separate_enter (fun _ => true) "proj-a" "C-c Enter\n$(rm -rf /)"
    (by decide) rfl

/-! ### Claim C5 -/

/-- C5 counterexample: with the system armed and a sessionId that has never
been notified (it is not even registered), `canNotify` returns `false`,
not `true` as the claim states for never-notified sessions. -/
theorem canNotify_unregistered_false_cx :
    (ProjectRegistry.init.setArmed true).isArmed = true ∧
    (ProjectRegistry.init.setArmed true).get "ghost" = none ∧
    (ProjectRegistry.init.setArmed true).canNotify "ghost" 123456 = false :=
  ⟨rfl, rfl, rfl⟩

/-- C5 amended: `canNotify` is false whenever disarmed, regardless of throttle
state; it is also false for sessionIds not present in the registry; for a
registered session it is true when never notified (`lastNotified = 0`), and
otherwise true iff at least 5000 ms have elapsed since `lastNotified`. -/
theorem canNotify_armed_gate_and_throttle (reg : ProjectRegistry)
    (sessionId : String) (now : Nat) :
    (reg.isArmed = false → reg.canNotify sessionId now = false) ∧
    (reg.get sessionId = none → reg.canNotify sessionId now = false) ∧
    (∀ p, reg.get sessionId = some p → reg.isArmed = true → p.lastNotified = 0 →
      reg.canNotify sessionId now = true) ∧
    (∀ p, reg.get sessionId = some p → reg.isArmed = true → ¬ p.lastNotified = 0 →
      (reg.canNotify sessionId now = true ↔ 5000 ≤ now - p.lastNotified)) := by
  refine ⟨?_, ?_, ?_, ?_⟩
  · intro h
    have h2 : reg.armed = false := h
    simp [ProjectRegistry.canNotify, h2]
  · intro h
    have h2 : mapGet reg.projects sessionId = none := h
    cases harm : reg.armed with
    | false => simp [ProjectRegistry.canNotify, harm]
    | true => simp [ProjectRegistry.canNotify, harm, h2]
  · intro p hp ha h0
    have ha2 : reg.armed = true := ha
    have hp2 : mapGet reg.projects sessionId = some p := hp
    simp [ProjectRegistry.canNotify, ha2, hp2, h0]
  · intro p hp ha hn
    have ha2 : reg.armed = true := ha
    have hp2 : mapGet reg.projects sessionId = some p := hp
    simp [ProjectRegistry.canNotify, ha2, hp2, hn]

/-- C5 amended witness: disarmed registry rejects notifications. -/
theorem canNotify_armed_gate_witness :
    ProjectRegistry.canNotify ProjectRegistry.init "s1" 42 = false :=
  (canNotify_armed_gate_and_throttle ProjectRegistry.init "s1" 42).1 rfl

/-! ### Claim C8 -/

/-- C8: in any sequence of `register` calls for the same id, only a call
finding the id unregistered returns `isNewRegistration = true` (and initialises
`lastNotified = 0`, `registeredAt = now`); a call finding it registered returns
`false`, preserves the stored `lastNotified` and `registeredAt`, and updates
`sessionId` and `projectName` to the newly supplied values.  Since `register`
always leaves the id registered, every call after the first returns `false`. -/
theorem register_first_only_new_preserves_fields (reg : ProjectRegistry)
    (pid sid nm : String) (now : Nat) :
    (reg.get pid = none →
      (reg.register pid sid nm now).1 = true ∧
      (reg.register pid sid nm now).2.get pid =
        some { sessionId := sid, projectName := nm, lastNotified := 0, registeredAt := now }) ∧
    (∀ p, reg.get pid = some p →
      (reg.register pid sid nm now).1 = false ∧
      (reg.register pid sid nm now).2.get pid =
        some { sessionId := sid, projectName := nm,
               lastNotified := p.lastNotified, registeredAt := p.registeredAt }) ∧
    ((reg.register pid sid nm now).2.get pid ≠ none) := by
  have hset : ∀ v : ProjectMetadata, mapGet (mapSet reg.projects pid v) pid = some v :=
    fun v => by rw [mapGet_mapSet, if_pos rfl]
  refine ⟨?_, ?_, ?_⟩
  · intro h
    have h2 : mapGet reg.projects pid = none := h
    unfold ProjectRegistry.register
    rw [h2]
    exact ⟨rfl, hset _⟩
  · intro p hp
    have hp2 : mapGet reg.projects pid = some p := hp
    unfold ProjectRegistry.register
    rw [hp2]
    exact ⟨rfl, hset _⟩
  · show ¬ mapGet (mapSet reg.projects pid _) pid = none
    rw [mapGet_mapSet, if_pos rfl]
    simp

/-- C8 witness: a second `register` call for the same id returns `false`,
keeps `registeredAt` (and the never-notified state) and updates the name and
relay target. -/
theorem register_first_only_new_witness :
    ((ProjectRegistry.init.register "p" "s1" "n1" 5).2.register "p" "s2" "n2" 9).1 = false ∧
    ((ProjectRegistry.init.register "p" "s1" "n1" 5).2.register "p" "s2" "n2" 9).2.get "p" =
      some { sessionId := "s2", projectName := "n2", lastNotified := 0, registeredAt := 5 } :=
  (register_first_only_new_preserves_fields (ProjectRegistry.init.register "p" "s1" "n1" 5).2
    "p" "s2" "n2" 9).2.1
    { sessionId := "s1", projectName := "n1", lastNotified := 0, registeredAt := 5 } (by decide)

/-! ### Claim C9 -/

/-- C9 counterexample: the Telegram reply handler drops a whitespace-only
message silently — it emits no action at all, in particular no help message to
the operator. -/
theorem telegram_empty_reply_silent_cx :
    handleMessage none (fun _ => false) ProjectRegistry.init "   " =
      Except.ok ([], ProjectRegistry.init) := rfl

/-- C9 amended: a reply that is empty after trimming is never relayed to any
session; the Twilio webhook route rejects it with a help TwiML message, while
the Telegram handler terminates silently without sending anything. -/
theorem empty_reply_never_relayed (env : Option String) (exists? : String → Bool)
    (reg : ProjectRegistry) (text auth : String)
    (h : jsTrim text = "") :
    handleMessage env exists? reg text = Except.ok ([], reg) ∧
    smsInbound (some auth) auth (some text) env exists? reg =
      ([Action.twiml smsHelpTwiml], reg) := by
  constructor
  · unfold handleMessage
    rw [if_pos h]
  · unfold smsInbound smsInboundTry
    simp [h]

/-- C9 amended witness on a tab-and-newline message. -/
theorem empty_reply_never_relayed_witness :
    handleMessage none (fun _ => false) ProjectRegistry.init " \t\n " =
      Except.ok ([], ProjectRegistry.init) :=
  (empty_reply_never_relayed none (fun _ => false) ProjectRegistry.init " \t\n " "+1"
    (by decide)).1

/-! ### Claim C6 -/

/-- C6: an inbound reply with no leading-integer prefix (a bare reply, not
empty, not ON/OFF): with exactly one active session, the whole trimmed text
resolves — and, when the session exists, is relayed — to that session; with
two or more active sessions an ambiguity error is emitted and nothing is
relayed; with zero active sessions, the configured fallback target is used
when present, else a no-active-sessions error is emitted and nothing is
relayed. -/
theorem bare_reply_routing (env : Option String) (exists? : String → Bool)
    (reg : ProjectRegistry) (text : String)
    (h0 : ¬ jsTrim text = "")
    (h1 : ¬ jsToUpper (jsTrim text) = "ON")
    (h2 : ¬ jsToUpper (jsTrim text) = "OFF")
    (hp : (parseNumberedResponse (jsTrim text)).projectIndex = none) :
    (∀ p, reg.getActiveProjects = [p] →
      routeReply reg env (jsTrim text) =
        RouteOutcome.target p.sessionId p.projectName (jsTrim text) ∧
      (TmuxService.validateSessionName p.sessionId = true → exists? p.sessionId = true →
        handleMessage env exists? reg text =
          Except.ok ([Action.relayKeys p.sessionId (jsTrim text)], reg))) ∧
    (2 ≤ reg.getActiveProjects.length →
      handleMessage env exists? reg text =
        Except.ok
          ([Action.sendMsg "Multiple projects active. Reply with number + response (e.g., '1 Y')."],
           reg)) ∧
    (reg.getActiveProjects = [] → env = none →
      handleMessage env exists? reg text =
        Except.ok ([Action.sendMsg "No active projects. Send a notification first."], reg)) ∧
    (∀ fb, reg.getActiveProjects = [] → env = some fb →
      routeReply reg env (jsTrim text) = RouteOutcome.target fb fb (jsTrim text)) := by
  have hresp : (parseNumberedResponse (jsTrim text)).response = jsTrim text := by
    rw [parseNumbered_none_resp (jsTrim text) hp, jsTrim_idem]
  have hroute := routeReply_of_parse_none reg env (jsTrim text) hp
  rw [hresp] at hroute
  refine ⟨?_, ?_, ?_, ?_⟩
  · intro p hactive
    rw [hactive] at hroute
    refine ⟨hroute, fun hv he => ?_⟩
    rw [handleMessage_of_target env exists? reg text p.sessionId p.projectName (jsTrim text)
      h0 h1 h2 hroute hv, if_pos he]
  · intro hlen
    match hactive : reg.getActiveProjects with
    | [] => rw [hactive] at hlen; simp at hlen
    | [p] => rw [hactive] at hlen; simp at hlen
    | a :: b :: t =>
      rw [hactive] at hroute
      rw [handleMessage_routes env exists? reg text h0 h1 h2, hroute]
  · intro hactive henv
    subst henv
    rw [hactive] at hroute
    rw [handleMessage_routes none exists? reg text h0 h1 h2, hroute]
  · intro fb hactive henv
    subst henv
    rw [hactive] at hroute
    exact hroute

/-- C6 witness: the bare reply `"Y"` against a single-session registry relays
the whole trimmed text to that session. -/
theorem bare_reply_routing_witness :
    routeReply
      { projects :=
          [("p1",
            { sessionId := "alpha-session", projectName := "alpha", lastNotified := 0,
              registeredAt := 100 })],
        armed := false }
      none (jsTrim " Y ") =
      RouteOutcome.target "alpha-session" "alpha" "Y" ∧
    handleMessage none (fun _ => true)
      { projects :=
          [("p1",
            { sessionId := "alpha-session", projectName := "alpha", lastNotified := 0,
              registeredAt := 100 })],
        armed := false }
      " Y " =
      Except.ok ([Action.relayKeys "alpha-session" "Y"],
        { projects :=
            [("p1",
              { sessionId := "alpha-session", projectName := "alpha", lastNotified := 0,
                registeredAt := 100 })],
          armed := false }) := by
  have h := (bare_reply_routing none (fun _ => true)
      { projects :=
          [("p1",
            { sessionId := "alpha-session", projectName := "alpha", lastNotified := 0,
              registeredAt := 100 })],
        armed := false }
      " Y " (by decide) (by decide) (by decide) (by decide)).1
      { sessionId := "alpha-session", projectName := "alpha", lastNotified := 0,
        registeredAt := 100 } rfl
  exact ⟨h.1, h.2 (by decide) rfl⟩

/-! ### Claim C7 -/

/-- C7: against a registry with exactly two active sessions (and an existing,
validly named second target), the reply `"2 Y"` relays payload `"Y"` to the
session at 0-based index 1 — the second-registered session — while `"3 Y"`
produces the invalid-number error to the operator and relays nothing. -/
theorem numbered_reply_two_sessions (env : Option String) (exists? : String → Bool)
    (reg : ProjectRegistry) (p₀ p₁ : ProjectMetadata)
    (hactive : reg.getActiveProjects = [p₀, p₁])
    (hv : TmuxService.validateSessionName p₁.sessionId = true)
    (he : exists? p₁.sessionId = true) :
    handleMessage env exists? reg "2 Y" =
      Except.ok ([Action.relayKeys p₁.sessionId "Y"], reg) ∧
    handleMessage env exists? reg "3 Y" =
      Except.ok
        ([Action.sendMsg "Invalid project number 3. Text a valid number + response."], reg) := by
  constructor
  · have hr : routeReply reg env (jsTrim "2 Y") =
        RouteOutcome.target p₁.sessionId p₁.projectName "Y" := by
      rw [routeReply_of_parse_some reg env (jsTrim "2 Y") 1 "Y" (by decide) (by decide)]
      have hbi : reg.getByIndex 1 = some p₁ := by
        simp [ProjectRegistry.getByIndex, hactive]
      rw [hbi]
    rw [handleMessage_of_target env exists? reg "2 Y" p₁.sessionId p₁.projectName "Y"
      (by decide) (by decide) (by decide) hr hv, if_pos he]
  · have hr : routeReply reg env (jsTrim "3 Y") = RouteOutcome.invalidNumber 3 := by
      rw [routeReply_of_parse_some reg env (jsTrim "3 Y") 2 "Y" (by decide) (by decide)]
      have hbi : reg.getByIndex 2 = none := by
        simp [ProjectRegistry.getByIndex, hactive]
      rw [hbi]
      decide
    rw [handleMessage_routes env exists? reg "3 Y" (by decide) (by decide) (by decide), hr]
    have hmsg : ("Invalid project number " ++ toString (3 : Int) ++
        ". Text a valid number + response.") =
        "Invalid project number 3. Text a valid number + response." := by decide
    exact congrArg (fun msg => Except.ok ([Action.sendMsg msg], reg)) hmsg

/-- C7 witness: a concrete two-session registry. -/
theorem numbered_reply_two_sessions_witness :
    handleMessage none (fun _ => true)
      { projects :=
          [("p1",
            { sessionId := "alpha-session", projectName := "alpha", lastNotified := 0,
              registeredAt := 100 }),
           ("p2",
            { sessionId := "beta-session", projectName := "beta", lastNotified := 0,
              registeredAt := 200 })],
        armed := false }
      "2 Y" =
      Except.ok ([Action.relayKeys "beta-session" "Y"],
        { projects :=
            [("p1",
              { sessionId := "alpha-session", projectName := "alpha", lastNotified := 0,
                registeredAt := 100 }),
             ("p2",
              { sessionId := "beta-session", projectName := "beta", lastNotified := 0,
                registeredAt := 200 })],
          armed := false }) :=
  (numbered_reply_two_sessions none (fun _ => true)
    { projects :=
        [("p1",
          { sessionId := "alpha-session", projectName := "alpha", lastNotified := 0,
            registeredAt := 100 }),
         ("p2",
          { sessionId := "beta-session", projectName := "beta", lastNotified := 0,
            registeredAt := 200 })],
      armed := false }
    { sessionId := "alpha-session", projectName := "alpha", lastNotified := 0,
      registeredAt := 100 }
    { sessionId := "beta-session", projectName := "beta", lastNotified := 0,
      registeredAt := 200 }
    rfl (by decide) rfl).1

/-! ### Claim C1 -/

/-- C1 counterexample: a stale project registered under the empty-string
projectId — reachable through the notify route when `project_id` and
`session_id` are both empty while `tmux_session` is set — is reported to the
operator when its tmux session is gone, but its registry entry is kept: the
truthiness guard `if (staleProjectId)` skips the empty string, so the claimed
cleanup does not happen. -/
theorem stale_empty_project_id_kept_cx :
    (notifyStep none ProjectRegistry.init
        { session_id := "", project_id := some "", project_name := some "alpha",
          tmux_session := some "alpha-session" } 100 (fun _ => none)).2 =
      { projects :=
          [("",
            { sessionId := "alpha-session", projectName := "alpha", lastNotified := 0,
              registeredAt := 100 })],
        armed := false } ∧
    handleMessage none (fun _ => false)
      { projects :=
          [("",
            { sessionId := "alpha-session", projectName := "alpha", lastNotified := 0,
              registeredAt := 100 })],
        armed := false }
      "Y" =
      Except.ok ([Action.sendMsg (staleSessionMsg "alpha-session" "alpha")],
        { projects :=
            [("",
              { sessionId := "alpha-session", projectName := "alpha", lastNotified := 0,
                registeredAt := 100 })],
          armed := false }) ∧
    ProjectRegistry.get
      { projects :=
          [("",
            { sessionId := "alpha-session", projectName := "alpha", lastNotified := 0,
              registeredAt := 100 })],
        armed := false }
      "" =
      some { sessionId := "alpha-session", projectName := "alpha", lastNotified := 0,
             registeredAt := 100 } :=
  ⟨rfl, rfl, rfl⟩

/-- C1 amended: whenever an inbound reply resolves to a `(session, payload)`
target whose tmux session no longer exists (`exists?` returns `false`), the
handler returns normally (no exception escapes), sends exactly one error
message to the operator and relays nothing; the stale registry entry found for
that session name is removed when its projectId is truthy (nonempty), while an
entry found under the empty-string projectId is kept (the source's truthiness
guard skips it); whenever some registered project carries that session name,
an entry is found.  (`hnd` is the key-uniqueness invariant of the underlying
ES2015 `Map`.) -/
theorem stale_target_error_and_guarded_cleanup (env : Option String)
    (exists? : String → Bool) (reg : ProjectRegistry) (text sid pn resp : String)
    (h0 : ¬ jsTrim text = "")
    (h1 : ¬ jsToUpper (jsTrim text) = "ON")
    (h2 : ¬ jsToUpper (jsTrim text) = "OFF")
    (hr : routeReply reg env (jsTrim text) = RouteOutcome.target sid pn resp)
    (hv : TmuxService.validateSessionName sid = true)
    (he : exists? sid = false)
    (hnd : (reg.projects.map Prod.fst).Nodup) :
    handleMessage env exists? reg text =
      Except.ok ([Action.sendMsg (staleSessionMsg sid pn)], cleanupStale reg sid) ∧
    (∀ tr reg2, handleMessage env exists? reg text = Except.ok (tr, reg2) →
      ∀ a ∈ tr, ∀ s payload, a ≠ Action.relayKeys s payload) ∧
    (∀ pid, reg.findProjectIdBySession sid = some pid → ¬ pid = "" →
      (cleanupStale reg sid).get pid = none) ∧
    (reg.findProjectIdBySession sid = some "" → cleanupStale reg sid = reg) ∧
    ((∃ m ∈ reg.getActiveProjects, m.sessionId = sid) →
      ∃ pid, reg.findProjectIdBySession sid = some pid) := by
  have hH : handleMessage env exists? reg text =
      Except.ok ([Action.sendMsg (staleSessionMsg sid pn)], cleanupStale reg sid) := by
    rw [handleMessage_of_target env exists? reg text sid pn resp h0 h1 h2 hr hv,
      if_neg (by simp [he])]
  refine ⟨hH, ?_, ?_, ?_, ?_⟩
  · intro tr reg2 hEq a ha s payload
    rw [hH] at hEq
    have htr : tr = [Action.sendMsg (staleSessionMsg sid pn)] :=
      congrArg Prod.fst (Except.ok.inj hEq) |>.symm
    rw [htr] at ha
    rcases List.mem_singleton.mp ha with rfl
    intro hc
    cases hc
  · intro pid hfind hpid
    unfold cleanupStale
    rw [hfind]
    show (if pid = "" then reg else (reg.remove pid).2).get pid = none
    rw [if_neg hpid]
    show mapGet (mapDelete reg.projects pid) pid = none
    exact mapGet_mapDelete_self reg.projects pid hnd
  · intro hfind
    unfold cleanupStale
    rw [hfind]
    show (if ("" : String) = "" then reg else (reg.remove "").2) = reg
    rw [if_pos rfl]
  · rintro ⟨m, hm, hsid⟩
    rcases List.mem_map.mp hm with ⟨e, he2, hem⟩
    unfold ProjectRegistry.findProjectIdBySession
    cases hfe : reg.projects.find? (fun e => e.2.sessionId = sid) with
    | none =>
      have := List.find?_eq_none.mp hfe e he2
      rw [hem, hsid] at this
      simp at this
    | some e2 => exact ⟨e2.1, rfl⟩

/-! ### Claim C4 -/

/-- The truncation stage of `formatForSMS`, exposed against the value of the
earlier pipeline stages. -/
theorem formatForSMS_eq (text : String) (m : Nat) (r : String)
    (h : jsTrim (String.mk ((redactSensitiveData (stripAnsiCodes text)).toList.filter
        (fun c => c.toNat ≤ 0x7f))) = r) :
    formatForSMS text m =
      if m < r.length then String.mk (r.toList.take m) ++ "..." else r := by
  simp only [formatForSMS]
  rw [h]

/-- C4 counterexample: an input containing the quoted assignment
`password="abcdef1234567890"` but also a bare copy of the secret outside any
redactable assignment: the assignment is redacted, the bare copy survives
every pattern, and the final output contains the full 16-character secret. -/
theorem formatForSMS_bare_secret_leak_cx :
    formatForSMS "abcdef1234567890 password=\"abcdef1234567890\"" 450 =
      "abcdef1234567890 [REDACTED_PASSWORD]" ∧
    containsSecretRun "abcdef1234567890"
      (formatForSMS "abcdef1234567890 password=\"abcdef1234567890\"" 450) = true := by
  constructor
  · decide
  · decide

/-- C4 amended: the pipeline order (strip, then redact, then truncate) holds
by construction, and running `formatForSMS` on the exact input
`password="abcdef1234567890"` reveals no contiguous 8+ character substring of
the secret for any truncation limit; an input that additionally repeats the
secret outside a redactable assignment can still leak it. -/
theorem formatForSMS_password_assignment_never_leaks (maxChars : Nat) :
    containsSecretRun "abcdef1234567890"
      (formatForSMS "password=\"abcdef1234567890\"" maxChars) = false := by
  rw [formatForSMS_eq "password=\"abcdef1234567890\"" maxChars "[REDACTED_PASSWORD]"
    (by decide)]
  have hlen : ("[REDACTED_PASSWORD]" : String).length = 19 := by decide
  by_cases hm : maxChars < ("[REDACTED_PASSWORD]" : String).length
  · rw [if_pos hm]
    rw [hlen] at hm
    interval_cases maxChars <;> decide
  · rw [if_neg hm]
    decide

/-! ### Claim C10 -/

/-- C10: when a session's registration event arrives while the system is
disarmed, no message at all is sent for that event (the disarmed check returns
before the welcome step, but after registration), and across any further
sequence of events concerning that session — notification events for the same
projectId with arbitrary payloads and capture outcomes, and operator arm and
disarm toggles — the one-time welcome message is never sent, because the
session stays registered and `register` only reports a new registration for an
unregistered id. -/
theorem welcome_never_sent_first_event_disarmed (env : Option String)
    (reg : ProjectRegistry) (p : NotifyPayload) (now : Nat)
    (cap : String → Option String) (evs : List SysEvent)
    (hdis : reg.isArmed = false)
    (hsid : ¬ effectiveSessionId env p = "")
    (hevs : ∀ e ∈ evs, (∃ b, e = SysEvent.arm b) ∨
      ∃ q n c, e = SysEvent.notify q n c ∧ effectiveProjectId q = effectiveProjectId p) :
    (notifyStep env reg p now cap).1 = [] ∧
    ∀ a ∈ (sysRun env reg (SysEvent.notify p now cap :: evs)).1, ∀ s,
      a ≠ Action.sendMsg (welcomeMessage s) := by
  have hdis2 : reg.armed = false := hdis
  have htr : (notifyStep env reg p now cap).1 = [] :=
    notifyStep_trace_disarmed env reg p now cap hdis2
  refine ⟨htr, ?_⟩
  intro a ha s
  simp only [sysRun] at ha
  rw [List.mem_append] at ha
  rcases ha with ha | ha
  · rw [show (sysStep env reg (SysEvent.notify p now cap)).1 = [] from htr] at ha
    simp at ha
  · have hreg : (((sysStep env reg (SysEvent.notify p now cap)).2).get
        (effectiveProjectId p)).isSome = true :=
      notifyStep_get_isSome env reg p now cap (effectiveProjectId p) (Or.inl ⟨rfl, hsid⟩)
    exact sysRun_no_welcome env (effectiveProjectId p) evs _ hreg hevs a ha s

/-- C10 witness: a first event while disarmed, then the operator arms, then a
second event for the same session — the welcome never appears in the emitted
actions. -/
theorem welcome_never_sent_witness :
    Action.sendMsg (welcomeMessage "alpha") ∉
      (sysRun none ProjectRegistry.init
        [SysEvent.notify
           { session_id := "s1", project_id := some "pA", project_name := some "alpha",
             tmux_session := some "alpha-session" } 50 (fun _ => some "ctx"),
         SysEvent.arm true,
         SysEvent.notify
           { session_id := "s1", project_id := some "pA", project_name := some "alpha",
             tmux_session := some "alpha-session" } 9050 (fun _ => some "ctx")]).1 := by
  intro hmem
  refine (welcome_never_sent_first_event_disarmed none ProjectRegistry.init
    { session_id := "s1", project_id := some "pA", project_name := some "alpha",
      tmux_session := some "alpha-session" } 50 (fun _ => some "ctx")
    [SysEvent.arm true,
     SysEvent.notify
       { session_id := "s1", project_id := some "pA", project_name := some "alpha",
         tmux_session := some "alpha-session" } 9050 (fun _ => some "ctx")]
    rfl (by decide) ?_).2 _ hmem "alpha" rfl
  intro e he
  rcases List.mem_cons.mp he with rfl | he2
  · exact Or.inl ⟨true, rfl⟩
  · rcases List.mem_singleton.mp he2 with rfl
    exact Or.inr ⟨_, _, _, rfl, rfl⟩

/-- C1 amended witness: a bare reply against a single-session registry (with
a truthy projectId) whose tmux session has vanished: the handler answers with
the error message and the cleanup applies. -/
theorem stale_target_guarded_cleanup_witness :
    handleMessage none (fun _ => false)
      { projects :=
          [("p1",
            { sessionId := "alpha-session", projectName := "alpha", lastNotified := 0,
              registeredAt := 100 })],
        armed := false }
      "Y" =
      Except.ok ([Action.sendMsg (staleSessionMsg "alpha-session" "alpha")],
        cleanupStale
          { projects :=
              [("p1",
                { sessionId := "alpha-session", projectName := "alpha", lastNotified := 0,
                  registeredAt := 100 })],
            armed := false }
          "alpha-session") :=
  (stale_target_error_and_guarded_cleanup none (fun _ => false) _ "Y" "alpha-session" "alpha"
    "Y" (by decide) (by decide) (by decide) (by decide) (by decide) rfl (by decide)).1

end SmsConnect
